import Mathlib

/-!
Shallow embedding of the ingress trust boundary of the traffic-takip
repository: the sliding-window rate limiter (`src/core/security/rate-limiter.ts`),
the HMAC integrity service with nonce-based replay protection
(`src/core/security/hmac.ts`), the JWT token service and permission checker
(`src/core/auth/jwt.ts`), the auth middlewares (`src/core/auth/middleware.ts`)
and the route/hook composition (`src/core/http/routes/api.ts`).

Times are modelled as `Int` (JavaScript millisecond timestamps), byte buffers
as `List Nat`, and the cryptographic digest primitive (Node's
`createHmac(alg, key).update(msg).digest(enc)`) as an explicit function
parameter `hmacFn : String → String → List Nat` from (key, message) to digest
bytes; the JWT signing primitive is likewise a parameter
`signFn : String → JWTPayload → String`.
-/

namespace TrafficTakip

/-! ### Rate limiter (`RateLimiter.checkLimit`, rate-limiter.ts)

The Redis sorted set behind a rate-limit key is modelled by the list of its
member scores (timestamps).  `checkLimit` runs the pipeline
`zremrangebyscore key -inf (now - windowMs)` (drops scores ≤ windowStart),
`zcard` (counts what remains), `zadd key now member`, `expire`, and builds the
result from the `zcard` count, exactly as the source does. -/

structure RateLimitConfig where
  windowMs : Int
  maxRequests : Int
  deriving Repr, DecidableEq

structure RateLimitResult where
  allowed : Bool
  remaining : Int
  resetTime : Int
  totalHits : Int
  deriving Repr, DecidableEq

/-- `RateLimiter.checkLimit`: returns the result together with the new state of
the key's sorted set.  Note the count is taken *before* the current request is
added (`zcard` runs before `zadd` in the pipeline). -/
def checkLimit (cfg : RateLimitConfig) (now : Int) (entries : List Int) :
    RateLimitResult × List Int :=
  let windowStart := now - cfg.windowMs
  let kept := entries.filter (fun t => windowStart < t)
  let currentCount : Int := (kept.length : Int)
  ({ allowed := decide (currentCount ≤ cfg.maxRequests)
   , remaining := max 0 (cfg.maxRequests - currentCount)
   , resetTime := now + cfg.windowMs
   , totalHits := currentCount }, kept ++ [now])

/-- State of a key's sorted set after `n` `checkLimit` calls all issued at the
same instant `now`, starting from an empty key. -/
def burstState (cfg : RateLimitConfig) (now : Int) : Nat → List Int
  | 0 => []
  | n + 1 => (checkLimit cfg now (burstState cfg now n)).2

structure MwReply where
  status : Nat
  code : String
  deriving Repr, DecidableEq

/-- Outcome of `createRateLimitMiddleware`'s handler: `reply = none` means the
request proceeds to the route handler. -/
structure RateLimitMwOutcome where
  reply : Option MwReply
  headersSet : Bool
  degradedLog : Bool
  deriving Repr, DecidableEq

/-- `createRateLimitMiddleware` (rate-limiter.ts): the awaited
`rateLimiter.checkLimit` either yields a result or throws (e.g. the
`'Rate limit check failed'` error raised when the Redis pipeline fails);
the catch block logs and deliberately sends no reply. -/
def rateLimitMiddleware (res : Except String RateLimitResult) : RateLimitMwOutcome :=
  match res with
  | .error _ => { reply := none, headersSet := false, degradedLog := true }
  | .ok r =>
    { reply := if r.allowed then none else some ⟨429, "RATE_LIMIT_EXCEEDED"⟩
    , headersSet := true
    , degradedLog := false }

/-! ### Hex encoding / decoding (Node `Buffer` hex semantics)

`Buffer.from(str, 'hex')` decodes pairs of hex digits and stops at the first
invalid pair (an odd trailing digit is dropped); digests are encoded as
lowercase hex. -/

def hexDigitVal (c : Char) : Option Nat :=
  if '0' ≤ c ∧ c ≤ '9' then some (c.toNat - 48)
  else if 'a' ≤ c ∧ c ≤ 'f' then some (c.toNat - 87)
  else if 'A' ≤ c ∧ c ≤ 'F' then some (c.toNat - 55)
  else none

def hexCharOf (n : Nat) : Char :=
  if n < 10 then Char.ofNat (48 + n) else Char.ofNat (87 + n)

def hexEncodeByte (b : Nat) : List Char :=
  [hexCharOf (b / 16 % 16), hexCharOf (b % 16)]

def hexEncode (bs : List Nat) : String :=
  String.mk ((bs.map hexEncodeByte).flatten)

def hexDecodeList : List Char → List Nat
  | c1 :: c2 :: rest =>
    match hexDigitVal c1, hexDigitVal c2 with
    | some h, some l => (16 * h + l) :: hexDecodeList rest
    | _, _ => []
  | _ => []

def hexDecode (s : String) : List Nat := hexDecodeList s.toList

/-! ### HMAC integrity service (`HMACService`, hmac.ts) -/

structure HMACConfig where
  maxAge : Int
  deriving Repr, DecidableEq

structure HMACServiceModel where
  secret : String
  config : HMACConfig
  deriving Repr, DecidableEq

structure SignedRequest where
  signature : String
  timestamp : Int
  nonce : String
  payload : String
  deriving Repr, DecidableEq

structure HMACValidationResult where
  valid : Bool
  error : Option String
  age : Option Int
  deriving Repr, DecidableEq

/-- `HMACService.createMessage`:
`` `${siteId}:${timestamp}:${nonce}:${payload}` ``. -/
def createMessage (payload : String) (timestamp : Int) (nonce : String)
    (siteId : String) : String :=
  siteId ++ ":" ++ toString timestamp ++ ":" ++ nonce ++ ":" ++ payload

/-- Key selection in `HMACService.createSignature`:
`siteSalt ? `${this.secret}:${siteSalt}` : this.secret` — both a missing
argument and an empty string are falsy in JavaScript. -/
def hmacKeyOf (secret : String) (siteSalt : Option String) : String :=
  match siteSalt with
  | some s => if s = "" then secret else secret ++ ":" ++ s
  | none => secret

/-- `HMACService.createSignature(message, siteSalt?)`: hex digest of the HMAC
of the message under the (possibly salted) secret. -/
def createSignature (hmacFn : String → String → List Nat) (secret : String)
    (message : String) (siteSalt : Option String) : String :=
  hexEncode (hmacFn (hmacKeyOf secret siteSalt) message)

/-- `HMACService.generateNonce`:
`` `${Date.now()}-${Math.random().toString(36).substr(2, 9)}` `` with the
random suffix taken as a parameter. -/
def generateNonce (now : Int) (randSuffix : String) : String :=
  toString now ++ "-" ++ randSuffix

/-- `HMACService.sign(payload, siteId)`: note it calls
`createSignature(message)` with NO salt argument. -/
def hmacSign (hmacFn : String → String → List Nat) (svc : HMACServiceModel)
    (payload siteId : String) (now : Int) (randSuffix : String) : SignedRequest :=
  let timestamp := now
  let nonce := generateNonce now randSuffix
  let message := createMessage payload timestamp nonce siteId
  { signature := createSignature hmacFn svc.secret message none
  , timestamp := timestamp
  , nonce := nonce
  , payload := payload }

/-- Leading decimal digits of a character list. -/
def leadingDigits (cs : List Char) : List Char := cs.takeWhile (·.isDigit)

def digitsVal (cs : List Char) : Nat :=
  cs.foldl (fun acc c => 10 * acc + (c.toNat - 48)) 0

/-- JavaScript `parseInt` on the strings that occur here (an optional sign
followed by decimal digits); `none` stands for `NaN`. -/
def jsParseInt (s : String) : Option Int :=
  match s.toList with
  | '-' :: rest =>
    let d := leadingDigits rest
    if d.isEmpty then none else some (-(digitsVal d : Int))
  | cs =>
    let d := leadingDigits cs
    if d.isEmpty then none else some ((digitsVal d : Int))

/-- `a.split('-')[0]`: the part of the string before the first `'-'`. -/
def noncePart (s : String) : String :=
  String.mk (s.toList.takeWhile (fun c => c ≠ '-'))

/-- `parseInt(a.split('-')[0] || '0')` from `cleanupNonces`'s comparator. -/
def nonceKeyOf (s : String) : Option Int :=
  let p := noncePart s
  jsParseInt (if p = "" then "0" else p)

/-- The comparator `(a, b) => timestampB - timestampA` as the `le` relation of
a stable sort: `a` may come before `b` when `key b - key a ≤ 0`; a `NaN`
comparator value is treated by `Array.prototype.sort` as "leave in order",
i.e. both directions hold. -/
def nonceLe (a b : String) : Bool :=
  match nonceKeyOf a, nonceKeyOf b with
  | some x, some y => decide (y ≤ x)
  | _, _ => true

/-- `HMACService.cleanupNonces`: when the cache holds more than 1000 nonces it
is rebuilt from the 500 nonces with the newest timestamp prefix (sort
descending by `parseInt` of the prefix, `slice(0, 500)`). -/
def cleanupNonces (cache : List String) : List String :=
  if cache.length > 1000 then (cache.mergeSort nonceLe).take 500 else cache

/-- `Set.prototype.add` on the insertion-ordered nonce cache. -/
def setAdd (cache : List String) (n : String) : List String :=
  if cache.contains n then cache else cache ++ [n]

/-- The message of the error thrown by `crypto.timingSafeEqual` when the two
buffers differ in length, as reported through the catch block's
`` `Verification failed: ${error}` ``. -/
def verificationFailedMsg : String :=
  "Verification failed: RangeError: Input buffers must have the same byte length"

/-- `HMACService.verify(signedRequest, siteId, siteSalt)`: age check, nonce
check, signature comparison (`timingSafeEqual` throws on length mismatch and
the surrounding try/catch turns that into a `Verification failed` result),
then nonce recording and cleanup.  Returns the result together with the new
nonce cache. -/
def hmacVerify (hmacFn : String → String → List Nat) (svc : HMACServiceModel)
    (req : SignedRequest) (siteId siteSalt : String) (now : Int)
    (cache : List String) : HMACValidationResult × List String :=
  let age := now - req.timestamp
  if age > svc.config.maxAge then
    ({ valid := false, error := some "Request too old", age := some age }, cache)
  else if cache.contains req.nonce then
    ({ valid := false, error := some "Nonce already used", age := none }, cache)
  else
    let message := createMessage req.payload req.timestamp req.nonce siteId
    let expectedSignature := createSignature hmacFn svc.secret message (some siteSalt)
    let providedSignature := hexDecode req.signature
    let expectedBuffer := hexDecode expectedSignature
    if providedSignature.length ≠ expectedBuffer.length then
      ({ valid := false, error := some verificationFailedMsg, age := none }, cache)
    else if providedSignature ≠ expectedBuffer then
      ({ valid := false, error := some "Invalid signature", age := none }, cache)
    else
      ({ valid := true, error := none, age := some age },
       cleanupNonces (setAdd cache req.nonce))

/-- An envelope carrying the signature `HMACService.verify` itself recomputes
(the per-site salted key), timestamped at `ts` — the shape of envelope the
spec calls "signed with the correct per-site secret". -/
def saltSignedEnvelope (hmacFn : String → String → List Nat)
    (svc : HMACServiceModel) (payload siteId siteSalt : String) (ts : Int)
    (randSuffix : String) : SignedRequest :=
  { signature :=
      createSignature hmacFn svc.secret
        (createMessage payload ts (generateNonce ts randSuffix) siteId) (some siteSalt)
  , timestamp := ts
  , nonce := generateNonce ts randSuffix
  , payload := payload }

/-! ### JWT service (`JWTService`, `PermissionChecker`, jwt.ts) -/

structure JWTPayload where
  sub : String
  iat : Int
  exp : Int
  iss : String
  site_id : String
  tenant_id : String
  user_id : Option String
  permissions : List String
  session_id : Option String
  deriving Repr, DecidableEq

/-- A wire token as seen by `jwt.verify`: either structurally malformed or a
payload plus a signature string. -/
inductive JwtToken where
  | malformed : JwtToken
  | signed (payload : JWTPayload) (sig : String) : JwtToken
  deriving Repr, DecidableEq

inductive JwtLibError where
  | tokenExpired : JwtLibError
  | jsonWebTokenError (msg : String) : JwtLibError
  deriving Repr, DecidableEq

/-- Model of the `jsonwebtoken` library's
`jwt.verify(token, secret, {algorithms: ['HS256'], issuer})`: structure and
signature are checked first, then expiry (`TokenExpiredError` when the clock
has reached `exp`), then the issuer claim (a mismatch is a
`JsonWebTokenError`). -/
def jwtVerify (signFn : String → JWTPayload → String) (secret issuer : String)
    (now : Int) : JwtToken → Except JwtLibError JWTPayload
  | .malformed => .error (.jsonWebTokenError "jwt malformed")
  | .signed p sig =>
    if sig ≠ signFn secret p then .error (.jsonWebTokenError "invalid signature")
    else if now ≥ p.exp then .error .tokenExpired
    else if p.iss ≠ issuer then .error (.jsonWebTokenError "jwt issuer invalid")
    else .ok p

/-- `JWTService.verifyAccessToken`: runs `jwt.verify` with the fixed issuer,
then requires non-empty `site_id` and `tenant_id` (JS falsiness of `''`);
`TokenExpiredError` becomes `'Token expired'`, `JsonWebTokenError` becomes
`'Invalid token'`, and the missing-claims error is rethrown as is. -/
def verifyAccessToken (signFn : String → JWTPayload → String) (secret : String)
    (now : Int) (tok : JwtToken) : Except String JWTPayload :=
  match jwtVerify signFn secret "universal-tracking" now tok with
  | .ok p =>
    if p.site_id = "" ∨ p.tenant_id = "" then
      .error "Invalid token: missing site_id or tenant_id"
    else .ok p
  | .error .tokenExpired => .error "Token expired"
  | .error (.jsonWebTokenError _) => .error "Invalid token"

/-- `PermissionChecker.hasPermission`. -/
def hasPermission (p : JWTPayload) (permission : String) : Bool :=
  p.permissions.contains permission || p.permissions.contains "*"

/-- `PermissionChecker.canAccessSite`. -/
def canAccessSite (p : JWTPayload) (siteId : String) : Bool :=
  p.site_id == siteId

/-- `PermissionChecker.validateSiteAccess` (throws on denial). -/
def validateSiteAccess (p : JWTPayload) (requestedSiteId : String) :
    Except String Unit :=
  if canAccessSite p requestedSiteId then .ok ()
  else .error "Access denied: insufficient permissions for this site"

/-! ### Auth middleware (`createSiteAccessMiddleware`, middleware.ts) -/

structure AuthedUser where
  site_id : String
  tenant_id : String
  user_id : Option String
  permissions : List String
  session_id : Option String
  deriving Repr, DecidableEq

/-- JavaScript `a || b` on optional strings (`''` is falsy). -/
def jsOr (a b : Option String) : Option String :=
  match a with
  | some s => if s = "" then b else some s
  | none => b

/-- JavaScript `a || d` with a string default. -/
def jsOrD (a : Option String) (d : String) : String :=
  match a with
  | some s => if s = "" then d else s
  | none => d

/-- The `JWTPayload`-shaped object `createSiteAccessMiddleware` rebuilds from
`request.user` before calling `validateSiteAccess`. -/
def userToPayload (u : AuthedUser) (now : Int) : JWTPayload :=
  { sub := jsOrD u.user_id "unknown"
  , iat := now
  , exp := now + 3600
  , iss := "universal-tracking"
  , site_id := u.site_id
  , tenant_id := u.tenant_id
  , user_id := u.user_id
  , permissions := u.permissions
  , session_id := u.session_id }

/-- `createSiteAccessMiddleware(requiredSiteId?)`: 401 without a resolved
user, 400 without a (truthy) requested site id
(`requiredSiteId || params.site_id || body.site_id`), 403
`SITE_ACCESS_DENIED` when `validateSiteAccess` throws, pass (`none`)
otherwise. -/
def siteAccessMiddleware (requiredSiteId : Option String)
    (user : Option AuthedUser) (paramsSiteId bodySiteId : Option String)
    (now : Int) : Option MwReply :=
  match user with
  | none => some ⟨401, "AUTH_REQUIRED"⟩
  | some u =>
    match jsOr (jsOr requiredSiteId paramsSiteId) bodySiteId with
    | none => some ⟨400, "SITE_ID_REQUIRED"⟩
    | some rid =>
      if rid = "" then some ⟨400, "SITE_ID_REQUIRED"⟩
      else
        match validateSiteAccess (userToPayload u now) rid with
        | .ok _ => none
        | .error _ => some ⟨403, "SITE_ACCESS_DENIED"⟩

/-! ### Route / hook composition (`registerApiRoutes`, api.ts)

Fastify runs `preHandler` hooks in registration order — outer plugin hooks
before inner ones before route-level ones — and a hook that sends a reply
stops the chain.  `registerApiRoutes` adds the rate-limit hook on the outer
`/api` plugin, the JWT auth hook (resp. the API-key auth hook) on the inner
plugins, and the site-access (resp. HMAC) hook on the individual route. -/

inductive Stage where
  | rateChecked : Stage
  | authenticated : Stage
  | siteScoped : Stage
  | permissionChecked : Stage
  | integrityVerified : Stage
  deriving Repr, DecidableEq

/-- Hook chain of `GET /api/sites/:site_id/events`: rate-limit hook (outer
plugin), `authMiddleware` (inner plugin), `siteAccessMiddleware` (route). -/
def readEventsChain : List Stage := [.rateChecked, .authenticated, .siteScoped]

/-- Hook chain of `POST /api/sites/:site_id/events`: rate-limit hook (outer
plugin), `apiKeyMiddleware` (inner plugin), `hmacMiddleware` (route). -/
def writeEventsChain : List Stage := [.rateChecked, .authenticated, .integrityVerified]

/-- The stages that actually execute for a request whose per-stage verdict is
`verdict`: hooks run in order and the chain stops right after the first
failing hook (which sends the reply). -/
def executedStages (verdict : Stage → Bool) : List Stage → List Stage
  | [] => []
  | s :: rest => if verdict s then s :: executedStages verdict rest else [s]

/-! ### Concrete instances used by counterexamples and witnesses -/

/-- A concrete digest function whose output depends on the key length, so
that distinct keys give distinct digests here. -/
def toyHmac (key msg : String) : List Nat := [(key.length + msg.length) % 256]

/-- A concrete digest function with a constant two-byte digest. -/
def toyHmac2 (key msg : String) : List Nat := [(key.length) % 256, (msg.length) % 256]

/-- A concrete JWT signing primitive. -/
def toySign (secret : String) (p : JWTPayload) : String :=
  secret ++ "|" ++ p.sub ++ "|" ++ p.site_id

/-- The default-configured service (`maxAge` 300000 ms). -/
def defaultService : HMACServiceModel :=
  { secret := "s", config := { maxAge := 300000 } }

/-- A nonce whose timestamp prefix parses to `5` and whose identity is carried
by the length of its suffix. -/
def mkNonce (i : Nat) : String :=
  String.mk ('5' :: '-' :: List.replicate i 'a')

/-- A nonce cache holding 1000 distinct nonces, all with the same timestamp
prefix. -/
def fullCache : List String := (List.range 1000).map mkNonce

/-- An expired payload (`exp = 10`) with complete claims. -/
def pExpired : JWTPayload :=
  { sub := "u1", iat := 0, exp := 10, iss := "universal-tracking"
  , site_id := "s1", tenant_id := "t1", user_id := none
  , permissions := ["read"], session_id := none }

/-- A request verdict under which authentication fails and every other stage
passes. -/
def authFailVerdict : Stage → Bool := fun s =>
  match s with
  | .authenticated => false
  | _ => true

/-- A payload with complete claims and `exp = 1000`. -/
def pGood : JWTPayload :=
  { sub := "u2", iat := 0, exp := 1000, iss := "universal-tracking"
  , site_id := "s1", tenant_id := "t1", user_id := none
  , permissions := ["read"], session_id := none }

/-- An envelope correctly signed for an empty site salt at `t = 0`. -/
def lateReplayEnvelope : SignedRequest :=
  saltSignedEnvelope toyHmac defaultService "p" "site" "" 0 "r"

/-- An envelope whose signature decodes to fewer bytes than the expected
two-byte digest of `toyHmac2`. -/
def shortSigEnvelope : SignedRequest :=
  { signature := "00", timestamp := 0, nonce := "n", payload := "p" }

/-- An envelope whose signature decodes to the same number of bytes as the
expected digest of `toyHmac` but with a different value. -/
def eqLenBadSigEnvelope : SignedRequest :=
  { signature := "00", timestamp := 0, nonce := "n", payload := "p" }

/-- A correctly signed envelope timestamped `5` whose fresh nonce shares the
timestamp prefix `5` with every entry of `fullCache`. -/
def floodReq : SignedRequest :=
  { signature :=
      createSignature toyHmac "s" (createMessage "p" 5 (mkNonce 1000) "site") (some "")
  , timestamp := 5
  , nonce := mkNonce 1000
  , payload := "p" }

/-! ## Shared lemmas -/

theorem burstState_eq_replicate (cfg : RateLimitConfig) (now : Int)
    (hw : 0 < cfg.windowMs) : ∀ n, burstState cfg now n = List.replicate n now
  | 0 => rfl
  | n + 1 => by
    have ih := burstState_eq_replicate cfg now hw n
    simp only [burstState, ih, checkLimit]
    rw [List.filter_replicate]
    have h1 : (decide (now - cfg.windowMs < now)) = true := by
      simp only [decide_eq_true_eq]; omega
    rw [h1]
    simp [List.replicate_succ']

theorem cleanupNonces_of_le (cache : List String) (h : cache.length ≤ 1000) :
    cleanupNonces cache = cache := by
  unfold cleanupNonces
  rw [if_neg]
  omega

theorem cleanupNonces_length_of_gt (cache : List String)
    (h : 1000 < cache.length) : (cleanupNonces cache).length = 500 := by
  unfold cleanupNonces
  rw [if_pos h, List.length_take, List.length_mergeSort]
  omega

theorem hmacVerify_success (hmacFn : String → String → List Nat)
    (svc : HMACServiceModel) (req : SignedRequest) (siteId siteSalt : String)
    (now : Int) (cache : List String)
    (hsig : req.signature = createSignature hmacFn svc.secret
      (createMessage req.payload req.timestamp req.nonce siteId) (some siteSalt))
    (hage : ¬ (now - req.timestamp > svc.config.maxAge))
    (hfresh : cache.contains req.nonce = false) :
    hmacVerify hmacFn svc req siteId siteSalt now cache =
      ({ valid := true, error := none, age := some (now - req.timestamp) },
       cleanupNonces (cache ++ [req.nonce])) := by
  unfold hmacVerify
  rw [if_neg hage, if_neg (by rw [hfresh]; decide), hsig]
  rw [if_neg (by simp), if_neg (by simp)]
  unfold setAdd
  rw [if_neg (by rw [hfresh]; decide)]

theorem hmacVerify_valid_inversion (hmacFn : String → String → List Nat)
    (svc : HMACServiceModel) (req : SignedRequest) (siteId siteSalt : String)
    (now : Int) (cache : List String)
    (h : (hmacVerify hmacFn svc req siteId siteSalt now cache).1.valid = true) :
    cache.contains req.nonce = false ∧
    (hmacVerify hmacFn svc req siteId siteSalt now cache).2 =
      cleanupNonces (cache ++ [req.nonce]) := by
  unfold hmacVerify at h ⊢
  by_cases hage : now - req.timestamp > svc.config.maxAge
  · rw [if_pos hage] at h
    simp at h
  · rw [if_neg hage] at h ⊢
    by_cases hc : cache.contains req.nonce = true
    · rw [if_pos hc] at h
      simp at h
    · rw [if_neg hc] at h ⊢
      have hc' : cache.contains req.nonce = false := by
        cases hcv : cache.contains req.nonce
        · rfl
        · exact absurd hcv hc
      refine ⟨hc', ?_⟩
      by_cases hl : (hexDecode req.signature).length =
          (hexDecode (createSignature hmacFn svc.secret
            (createMessage req.payload req.timestamp req.nonce siteId)
            (some siteSalt))).length
      · rw [if_neg (by simpa using hl)] at h ⊢
        by_cases hv : hexDecode req.signature =
            hexDecode (createSignature hmacFn svc.secret
              (createMessage req.payload req.timestamp req.nonce siteId)
              (some siteSalt))
        · rw [if_neg (by simpa using hv)]
          unfold setAdd
          rw [if_neg (by rw [hc']; decide)]
        · rw [if_pos (by simpa using hv)] at h
          simp at h
      · rw [if_pos (by simpa using hl)] at h
        simp at h

theorem mkNonce_length (i : Nat) : (mkNonce i).length = i + 2 := by
  show ('5' :: '-' :: List.replicate i 'a').length = i + 2
  simp

theorem mkNonce_inj {i j : Nat} (h : mkNonce i = mkNonce j) : i = j := by
  have := congrArg String.length h
  rw [mkNonce_length, mkNonce_length] at this
  omega

theorem nonceKeyOf_mkNonce (i : Nat) : nonceKeyOf (mkNonce i) = some 5 := by
  have hp : noncePart (mkNonce i) = "5" := by
    show String.mk (('5' :: '-' :: List.replicate i 'a').takeWhile
      (fun c => c ≠ '-')) = "5"
    rw [List.takeWhile_cons, List.takeWhile_cons]
    rw [if_pos (by decide), if_neg (by decide)]
  unfold nonceKeyOf
  rw [hp]
  rfl

theorem nonceLe_mkNonce (i j : Nat) : nonceLe (mkNonce i) (mkNonce j) = true := by
  unfold nonceLe
  rw [nonceKeyOf_mkNonce, nonceKeyOf_mkNonce]
  simp

theorem mkNonce_top_not_mem_fullCache : mkNonce 1000 ∉ fullCache := by
  intro hmem
  obtain ⟨i, hi, hij⟩ := List.mem_map.mp hmem
  exact absurd (mkNonce_inj hij ▸ List.mem_range.mp hi) (by omega)

/-! ## Claim theorems -/

/-- C1 counterexample: with `maxRequests = N = 1` and both calls inside the
window for the same key, the second — i.e. the `(N+1)`th — `checkLimit` call
still returns `allowed = true` (with `remaining = 0`), not `allowed = false`
as the claim states; only the `(N+2)`th call is denied. -/
theorem checkLimit_second_call_allowed :
    (checkLimit ⟨1000, 1⟩ 0 (checkLimit ⟨1000, 1⟩ 0 []).2).1.allowed = true ∧
    (checkLimit ⟨1000, 1⟩ 0 (checkLimit ⟨1000, 1⟩ 0 []).2).1.remaining = 0 ∧
    (checkLimit ⟨1000, 1⟩ 0
      (checkLimit ⟨1000, 1⟩ 0 (checkLimit ⟨1000, 1⟩ 0 []).2).2).1.allowed = false := by
  decide

/-- C1 (amended): `checkLimit` counts the in-window entries present *before*
the current request is recorded.  For a burst of same-instant calls on one
key, the call made after `k` earlier calls observes `totalHits = k`,
`allowed = (k ≤ maxRequests)`, `remaining = max 0 (maxRequests − k)` and
`resetAt = now + windowMs` — so calls 1..N+1 are allowed (the `(N+1)`th with
`remaining = 0`) and the `(N+2)`th is the first denied; and a call whose
prior entries all lie a full window in the past observes a reset count of
zero. -/
theorem checkLimit_burst_and_reset (cfg : RateLimitConfig) (now : Int) (k : Nat)
    (hw : 0 < cfg.windowMs) :
    ((checkLimit cfg now (burstState cfg now k)).1.totalHits = (k : Int) ∧
     (checkLimit cfg now (burstState cfg now k)).1.allowed =
       decide ((k : Int) ≤ cfg.maxRequests) ∧
     (checkLimit cfg now (burstState cfg now k)).1.remaining =
       max 0 (cfg.maxRequests - (k : Int)) ∧
     (checkLimit cfg now (burstState cfg now k)).1.resetTime = now + cfg.windowMs) ∧
    ∀ (entries : List Int) (now2 : Int),
      (∀ t ∈ entries, t ≤ now2 - cfg.windowMs) →
      (checkLimit cfg now2 entries).1.totalHits = 0 ∧
      (checkLimit cfg now2 entries).1.allowed = decide ((0 : Int) ≤ cfg.maxRequests) := by
  constructor
  · rw [burstState_eq_replicate cfg now hw]
    simp only [checkLimit]
    rw [List.filter_replicate]
    have h1 : (decide (now - cfg.windowMs < now)) = true := by
      simp only [decide_eq_true_eq]; omega
    rw [h1]
    simp
  · intro entries now2 h
    have hnil : entries.filter (fun t => now2 - cfg.windowMs < t) = [] := by
      rw [List.filter_eq_nil_iff]
      intro t ht
      simpa using not_lt.mpr (h t ht)
    simp [checkLimit, hnil]

/-- Witness for C1's amended theorem at `maxRequests = 3`, `k = 4` prior
calls: the fifth (`(N+2)`th) call is denied with `remaining = 0`. -/
theorem checkLimit_burst_witness :
    (checkLimit ⟨1000, 3⟩ 0 (burstState ⟨1000, 3⟩ 0 4)).1.totalHits = ((4 : Nat) : Int) ∧
    (checkLimit ⟨1000, 3⟩ 0 (burstState ⟨1000, 3⟩ 0 4)).1.allowed =
      decide (((4 : Nat) : Int) ≤ (3 : Int)) ∧
    (checkLimit ⟨1000, 3⟩ 0 (burstState ⟨1000, 3⟩ 0 4)).1.remaining =
      max 0 ((3 : Int) - ((4 : Nat) : Int)) ∧
    (checkLimit ⟨1000, 3⟩ 0 (burstState ⟨1000, 3⟩ 0 4)).1.resetTime = 0 + (1000 : Int) :=
  (checkLimit_burst_and_reset ⟨1000, 3⟩ 0 4 (by decide)).1

/-- C7: when the counter store operation fails (the awaited `checkLimit`
rejects, for any error and any request), `createRateLimitMiddleware`'s catch
block admits the request — it sends neither a 429 nor an error reply — and
logs the degradation. -/
theorem rateLimitMiddleware_fails_open (err : String) :
    (rateLimitMiddleware (.error err)).reply = none ∧
    (rateLimitMiddleware (.error err)).degradedLog = true :=
  ⟨rfl, rfl⟩

/-- C4 counterexample: on the JWT-authenticated events route the rate-limit
hook is registered on the outer `/api` plugin, so for a request whose
authentication fails the executed stages are `[RATE_CHECKED, AUTHENTICATED]`:
the rate-limit check ran although authentication never succeeded, refuting
the claimed `AUTHENTICATED → … → RATE_CHECKED` order. -/
theorem rate_limit_runs_before_auth :
    executedStages authFailVerdict readEventsChain =
      [.rateChecked, .authenticated] ∧
    authFailVerdict .authenticated = false ∧
    Stage.rateChecked ∈ executedStages authFailVerdict readEventsChain := by
  decide

/-- C4 (amended): the hook chains registered by `registerApiRoutes` run the
rate-limit stage first — `RATE_CHECKED, AUTHENTICATED, SITE_SCOPED` on the
JWT read route and `RATE_CHECKED, AUTHENTICATED (API key), INTEGRITY_VERIFIED`
on the tracking write route; no `PERMISSION_CHECKED` hook is registered on
either.  The composition does short-circuit: for every request the executed
stages are exactly the longest passing run followed by at most the first
failing stage, so no stage runs after an earlier one fails. -/
theorem pipeline_order_and_short_circuit :
    readEventsChain = [.rateChecked, .authenticated, .siteScoped] ∧
    writeEventsChain = [.rateChecked, .authenticated, .integrityVerified] ∧
    ∀ (v : Stage → Bool) (chain : List Stage),
      executedStages v chain = chain.takeWhile v ++ (chain.dropWhile v).take 1 := by
  refine ⟨rfl, rfl, ?_⟩
  intro v chain
  induction chain with
  | nil => rfl
  | cons s rest ih =>
    by_cases h : v s
    · simp [executedStages, List.takeWhile_cons, List.dropWhile_cons, h, ih]
    · simp [executedStages, List.takeWhile_cons, List.dropWhile_cons, h]

/-- C9: site-access validation grants access exactly when the principal's
`site_id` equals the requested site id (no partial or hierarchical matching),
and a principal scoped to site `A` requesting site `B ≠ A` receives the 403
`SITE_ACCESS_DENIED` reply — the middleware sends the rejection instead of
passing the request on to the data handler. -/
theorem siteAccess_exact_match (u : AuthedUser) (reqd par body : Option String)
    (rid : String) (now : Int)
    (hres : jsOr (jsOr reqd par) body = some rid) (hne : rid ≠ "") :
    (siteAccessMiddleware reqd (some u) par body now = none ↔ u.site_id = rid) ∧
    (u.site_id ≠ rid →
      siteAccessMiddleware reqd (some u) par body now =
        some ⟨403, "SITE_ACCESS_DENIED"⟩) := by
  simp only [siteAccessMiddleware, hres, if_neg hne]
  constructor
  · by_cases h : u.site_id = rid <;>
      simp [validateSiteAccess, canAccessSite, userToPayload, h]
  · intro h
    simp [validateSiteAccess, canAccessSite, userToPayload, h]

/-- Witness for C9: a principal scoped to site `A` requesting site `B` is
rejected with 403 `SITE_ACCESS_DENIED`. -/
theorem siteAccess_witness :
    siteAccessMiddleware (some "B") (some ⟨"A", "t1", none, [], none⟩)
      none none 0 = some ⟨403, "SITE_ACCESS_DENIED"⟩ :=
  (siteAccess_exact_match ⟨"A", "t1", none, [], none⟩ (some "B") none none "B" 0
    (by decide) (by decide)).2 (by decide)

/-- C2 (the code at the failing input): an envelope produced by
`HMACService.sign` and then verified for the same site with its (non-empty)
per-site salt is rejected with `'Invalid signature'` even though its age `0`
is within `maxAge` and its nonce is fresh — `sign` computes the HMAC with the
base secret alone while `verify` recomputes it with `secret:siteSalt`, so
the claimed round trip never holds for a non-empty salt. -/
theorem sign_verify_roundtrip_fails :
    (hmacVerify toyHmac defaultService
      (hmacSign toyHmac defaultService "test-data" "ut_site_1_test" 0 "r1")
      "ut_site_1_test" "site_salt_ut_site_1_test" 0 []).1 =
      { valid := false, error := some "Invalid signature", age := none } := by
  decide

/-- C3 counterexample: a successfully verified envelope replayed identically
after the window has elapsed fails with `'Request too old'`, not with the
nonce-reused error the claim promises for every second verification. -/
theorem late_replay_not_nonce_error :
    (hmacVerify toyHmac defaultService lateReplayEnvelope "site" "" 0 []).1.valid =
      true ∧
    (hmacVerify toyHmac defaultService lateReplayEnvelope "site" "" 300001
      (hmacVerify toyHmac defaultService lateReplayEnvelope "site" "" 0 []).2).1 =
      { valid := false, error := some "Request too old", age := some 300001 } ∧
    some "Request too old" ≠ some "Nonce already used" := by
  refine ⟨by decide, by decide, by decide⟩

/-- C3 (amended): after a successful verification of an envelope, as long as
the nonce store has not crossed its 1000-entry bound (so the cleanup step
does not evict), a second verification of any envelope carrying the same
nonce — for any site, salt, payload and signature, correct or not — within
`maxAge` fails with `'Nonce already used'`: the nonce check runs before the
signature comparison. -/
theorem nonce_reuse_rejected (hmacFn : String → String → List Nat)
    (svc : HMACServiceModel) (req req2 : SignedRequest)
    (siteId siteSalt siteId2 siteSalt2 : String) (now now2 : Int)
    (cache : List String)
    (h1 : (hmacVerify hmacFn svc req siteId siteSalt now cache).1.valid = true)
    (hlen : cache.length < 1000)
    (hn : req2.nonce = req.nonce)
    (hage : ¬ (now2 - req2.timestamp > svc.config.maxAge)) :
    (hmacVerify hmacFn svc req2 siteId2 siteSalt2 now2
      (hmacVerify hmacFn svc req siteId siteSalt now cache).2).1 =
      { valid := false, error := some "Nonce already used", age := none } := by
  obtain ⟨hfresh, hsnd⟩ :=
    hmacVerify_valid_inversion hmacFn svc req siteId siteSalt now cache h1
  rw [hsnd, cleanupNonces_of_le _ (by simp; omega)]
  unfold hmacVerify
  rw [if_neg hage, if_pos]
  simp [hn]

/-- Witness for C3's amended theorem: the concrete envelope of
`late_replay_not_nonce_error` replayed five milliseconds later (inside the
window) is rejected with the nonce-reused error. -/
theorem nonce_reuse_witness :
    (hmacVerify toyHmac defaultService lateReplayEnvelope "other_site" "x" 5
      (hmacVerify toyHmac defaultService lateReplayEnvelope "site" "" 0 []).2).1 =
      { valid := false, error := some "Nonce already used", age := none } :=
  nonce_reuse_rejected toyHmac defaultService lateReplayEnvelope
    lateReplayEnvelope "site" "" "other_site" "x" 0 5 []
    (by decide) (by decide) rfl (by decide)

/-- C5 counterexample: a provided signature that decodes to a different
number of bytes than the expected one is rejected through the thrown-and-
caught `timingSafeEqual` length error, reported as `'Verification failed: …'`
— not the same signature-mismatch (`'Invalid signature'`) failure the claim
promises independent of operand length. -/
theorem length_mismatch_different_error :
    (hmacVerify toyHmac2 defaultService shortSigEnvelope "site" "x" 0 []).1 =
      { valid := false, error := some verificationFailedMsg, age := none } ∧
    verificationFailedMsg ≠ "Invalid signature" :=
  ⟨by decide, by decide⟩

/-- C5 (amended): a wrong signature is always rejected without an exception
escaping `verify`, but the reported failure depends on the operand lengths:
equal-length mismatching signatures yield `'Invalid signature'`, while a
provided signature of a different decoded length makes `timingSafeEqual`
throw and the catch block reports `'Verification failed: …'` instead. -/
theorem signature_mismatch_cases (hmacFn : String → String → List Nat)
    (svc : HMACServiceModel) (req : SignedRequest) (siteId siteSalt : String)
    (now : Int) (cache : List String)
    (hage : ¬ (now - req.timestamp > svc.config.maxAge))
    (hfresh : cache.contains req.nonce = false) :
    ((hexDecode req.signature).length =
        (hexDecode (createSignature hmacFn svc.secret
          (createMessage req.payload req.timestamp req.nonce siteId)
          (some siteSalt))).length →
      hexDecode req.signature ≠
        hexDecode (createSignature hmacFn svc.secret
          (createMessage req.payload req.timestamp req.nonce siteId)
          (some siteSalt)) →
      (hmacVerify hmacFn svc req siteId siteSalt now cache).1 =
        { valid := false, error := some "Invalid signature", age := none }) ∧
    ((hexDecode req.signature).length ≠
        (hexDecode (createSignature hmacFn svc.secret
          (createMessage req.payload req.timestamp req.nonce siteId)
          (some siteSalt))).length →
      (hmacVerify hmacFn svc req siteId siteSalt now cache).1 =
        { valid := false, error := some verificationFailedMsg, age := none }) := by
  constructor
  · intro hl hv
    unfold hmacVerify
    rw [if_neg hage, if_neg (by rw [hfresh]; decide),
      if_neg (by simpa using hl), if_pos hv]
  · intro hl
    unfold hmacVerify
    rw [if_neg hage, if_neg (by rw [hfresh]; decide), if_pos hl]

/-- Witness for C5's amended theorem: an equal-length wrong signature on a
concrete envelope yields `'Invalid signature'`. -/
theorem signature_mismatch_witness :
    (hmacVerify toyHmac defaultService eqLenBadSigEnvelope "site" "x" 0 []).1 =
      { valid := false, error := some "Invalid signature", age := none } :=
  (signature_mismatch_cases toyHmac defaultService eqLenBadSigEnvelope "site" "x"
    0 [] (by decide) (by decide)).1 (by decide) (by decide)

/-- C10: `verify` imposes no lower bound on the envelope age — for every
future offset `k`, a correctly salted-signed envelope with
`timestamp = now + k` (so `age = −k < 0 ≤ maxAge`) passes the age check and
verifies successfully, however far in the future its timestamp lies. -/
theorem future_timestamp_accepted (hmacFn : String → String → List Nat)
    (svc : HMACServiceModel) (payload siteId siteSalt randSuffix : String)
    (now : Int) (k : Nat) (cache : List String)
    (hmax : 0 ≤ svc.config.maxAge)
    (hfresh : cache.contains (generateNonce (now + (k : Int)) randSuffix) = false) :
    (hmacVerify hmacFn svc
      (saltSignedEnvelope hmacFn svc payload siteId siteSalt (now + (k : Int)) randSuffix)
      siteId siteSalt now cache).1.valid = true ∧
    (hmacVerify hmacFn svc
      (saltSignedEnvelope hmacFn svc payload siteId siteSalt (now + (k : Int)) randSuffix)
      siteId siteSalt now cache).1.age = some (-(k : Int)) := by
  have h := hmacVerify_success hmacFn svc
    (saltSignedEnvelope hmacFn svc payload siteId siteSalt (now + (k : Int)) randSuffix)
    siteId siteSalt now cache rfl
    (by show ¬ (now - (now + (k : Int)) > svc.config.maxAge); omega)
    hfresh
  rw [h]
  refine ⟨rfl, ?_⟩
  show some (now - (now + (k : Int))) = some (-(k : Int))
  congr 1
  omega

/-- Witness for C10: a concrete envelope post-dated by 10^15 ms verifies. -/
theorem future_timestamp_witness :
    (hmacVerify toyHmac defaultService
      (saltSignedEnvelope toyHmac defaultService "p" "site" "x"
        (0 + ((1000000000000000 : Nat) : Int)) "r")
      "site" "x" 0 []).1.valid = true ∧
    (hmacVerify toyHmac defaultService
      (saltSignedEnvelope toyHmac defaultService "p" "site" "x"
        (0 + ((1000000000000000 : Nat) : Int)) "r")
      "site" "x" 0 []).1.age = some (-((1000000000000000 : Nat) : Int)) :=
  future_timestamp_accepted toyHmac defaultService "p" "site" "x" "r" 0
    1000000000000000 [] (by decide) (by decide)

/-- C8 counterexample: a token past its expiry whose signature is also wrong
fails with `'Invalid token'` (the malformed-token error), not with
`'Token expired'` — `jwt.verify` checks the signature before the expiry, so
"fails with token-expired exactly when past expiry" does not hold. -/
theorem expired_bad_signature_invalid_token :
    100 ≥ pExpired.exp ∧
    verifyAccessToken toySign "sec" 100 (.signed pExpired "wrong") =
      .error "Invalid token" ∧
    ("Invalid token" : String) ≠ "Token expired" :=
  ⟨by decide, rfl, by decide⟩

/-- C8 (amended): `verifyAccessToken` resolves its error precedence in the
order of `jsonwebtoken`'s checks — `'Invalid token'` when the structure or
signature is invalid (regardless of expiry) or when, with a valid signature
and unexpired token, the issuer claim mismatches; `'Token expired'` when the
signature is valid and the clock has reached `exp`; the missing-claims error
when signature, expiry and issuer all pass but `site_id` or `tenant_id` is
empty; and the full claim set exactly when all checks pass. -/
theorem verifyAccessToken_cases (signFn : String → JWTPayload → String)
    (secret : String) (now : Int) (p : JWTPayload) (sig : String) :
    (verifyAccessToken signFn secret now .malformed = .error "Invalid token") ∧
    (verifyAccessToken signFn secret now (.signed p sig) = .error "Token expired" ↔
      sig = signFn secret p ∧ now ≥ p.exp) ∧
    (verifyAccessToken signFn secret now (.signed p sig) = .error "Invalid token" ↔
      (sig ≠ signFn secret p ∨
       (sig = signFn secret p ∧ now < p.exp ∧ p.iss ≠ "universal-tracking"))) ∧
    (verifyAccessToken signFn secret now (.signed p sig) =
        .error "Invalid token: missing site_id or tenant_id" ↔
      (sig = signFn secret p ∧ now < p.exp ∧ p.iss = "universal-tracking" ∧
       (p.site_id = "" ∨ p.tenant_id = ""))) ∧
    (verifyAccessToken signFn secret now (.signed p sig) = .ok p ↔
      (sig = signFn secret p ∧ now < p.exp ∧ p.iss = "universal-tracking" ∧
       ¬ (p.site_id = "" ∨ p.tenant_id = ""))) := by
  unfold verifyAccessToken jwtVerify
  refine ⟨rfl, ?_, ?_, ?_, ?_⟩ <;>
  · by_cases h1 : sig = signFn secret p <;> by_cases h2 : now ≥ p.exp <;>
      by_cases h3 : p.iss = "universal-tracking" <;>
      by_cases h4 : p.site_id = "" ∨ p.tenant_id = "" <;>
      simp [h1, h2, h3, h4, not_le] <;> omega

/-- Witness for C8's amended theorem: a well-signed, unexpired, complete
token yields the full claim set. -/
theorem verifyAccessToken_witness :
    verifyAccessToken toySign "sec" 5 (.signed pGood (toySign "sec" pGood)) =
      .ok pGood :=
  (verifyAccessToken_cases toySign "sec" 5 pGood (toySign "sec" pGood)).2.2.2.2.mpr
    ⟨rfl, by decide, rfl, by decide⟩

/-- C6 counterexample: with 1000 nonces already cached, a successful
verification records its (fresh, age-zero) nonce and the cleanup step run by
that same `verify` call immediately evicts it — the eviction keeps only the
500 entries with the newest timestamp prefixes and never consults `maxAge`,
so an entry recorded less than `maxAge` ago (here: recorded this instant) is
removed. -/
theorem fresh_nonce_evicted :
    (hmacVerify toyHmac defaultService floodReq "site" "" 5 fullCache).1.valid =
      true ∧
    floodReq.nonce ∉ (hmacVerify toyHmac defaultService floodReq "site" "" 5 fullCache).2 := by
  have hfresh : fullCache.contains floodReq.nonce = false := by
    cases hcv : fullCache.contains floodReq.nonce
    · rfl
    · exact absurd (by simpa [List.contains, List.elem_iff] using hcv)
        mkNonce_top_not_mem_fullCache
  have h := hmacVerify_success toyHmac defaultService floodReq "site" "" 5
    fullCache rfl (by show ¬ ((5 : Int) - 5 > 300000); decide) hfresh
  rw [h]
  refine ⟨rfl, ?_⟩
  have hsorted : List.Pairwise (fun a b => nonceLe a b = true)
      (fullCache ++ [floodReq.nonce]) := by
    rw [List.pairwise_append]
    refine ⟨?_, by simp, ?_⟩
    · unfold fullCache
      rw [List.pairwise_map]
      exact List.pairwise_of_forall_mem_list (fun i _ j _ => nonceLe_mkNonce i j)
    · intro a ha b hb
      obtain ⟨i, _, rfl⟩ := List.mem_map.mp ha
      have hb' : b = floodReq.nonce := by simpa using hb
      subst hb'
      exact nonceLe_mkNonce i 1000
  have hlen : fullCache.length = 1000 := by simp [fullCache]
  have hclean : cleanupNonces (fullCache ++ [floodReq.nonce]) =
      (fullCache ++ [floodReq.nonce]).take 500 := by
    unfold cleanupNonces
    rw [if_pos (by simp [hlen]), List.mergeSort_of_sorted hsorted]
  rw [hclean, List.take_append_eq_append_take, hlen]
  have htake : fullCache.take 500 = (List.range 500).map mkNonce := by
    unfold fullCache
    rw [← List.map_take, List.take_range]
    norm_num
  rw [htake]
  intro hmem
  simp only [List.take, List.append_nil] at hmem
  have hmem' : mkNonce 1000 ∈ (List.range 500).map mkNonce := by
    simpa using hmem
  obtain ⟨i, hi, hij⟩ := List.mem_map.mp hmem'
  exact absurd (mkNonce_inj hij ▸ List.mem_range.mp hi) (by omega)

/-- C6 (amended): the cleanup/eviction step leaves the store untouched while
it holds at most 1000 entries; once it exceeds 1000 entries it keeps exactly
500 (those with the newest timestamp prefixes), without consulting entry
ages, so entries younger than `maxAge` can be evicted. -/
theorem cleanup_bound_behavior (cache : List String) :
    (cache.length ≤ 1000 → cleanupNonces cache = cache) ∧
    (1000 < cache.length → (cleanupNonces cache).length = 500) :=
  ⟨cleanupNonces_of_le cache, cleanupNonces_length_of_gt cache⟩

/-- Witness for C6's amended theorem: a small store is left untouched. -/
theorem cleanup_bound_witness : cleanupNonces ["5-a"] = ["5-a"] :=
  (cleanup_bound_behavior ["5-a"]).1 (by decide)

end TrafficTakip
